import Mathlib

/-!
Verification development for the `intelligent-model-selector` repository.

The repository contains two Python pipelines:

* `refresh_aa_performance_metrics.py` — fetch model-performance data from an
  HTTP API, transform it, and replace the contents of the
  `ims."20_aa_performance_metrics"` table using a backup/delete/insert/restore
  protocol over a PostgreSQL connection (`psycopg2`, `autocommit = False`).
* `selector-service/refresh_model_aa_mapping.py` — clear the
  `ims."10_model_aa_mapping"` table, read `(inference_provider, provider_slug)`
  pairs and the external `aa_slug` column, match each pair to at most one
  external slug with a three-rule heuristic, and bulk-insert the results.

This file is a shallow embedding of those two programs.  Python strings are
Lean `String`s (the slugs handled by the code are ASCII, so the ASCII-only
`Char.toLower` coincides with Python `str.lower` on all inputs of interest);
JSON values are the inductive `Json` below, with Python `None` identified with
JSON `null`; database tables are Lean lists of rows; exceptions are modelled
with `Except`/`Bool` results.  Statements about the database-facing code model
PostgreSQL's transactional semantics, in which DDL (`CREATE TABLE` /
`DROP TABLE`) executed inside an open transaction is undone by `ROLLBACK`,
and `psycopg2` rolls an open transaction back when the connection is closed.
-/

set_option linter.unusedVariables false

namespace IMS

/-! ### Python string primitives, modelled over character lists -/

/-- Python `s.lower()`.  `Char.toLower` lowercases exactly the ASCII range,
which agrees with Python on the ASCII slugs this program manipulates. -/
def pyLower (s : String) : String :=
  ⟨s.data.map Char.toLower⟩

/-- Python `s.endswith(suffix)` (used as `aa_slug.lower().endswith(...)`). -/
def pyEndsWith (s suffixStr : String) : Bool :=
  List.isSuffixOf suffixStr.data s.data

/-- Does `pat` occur at the start of `l`? (helper for `pyIn`). -/
def startsWithCL : List Char → List Char → Bool
  | [], _ => true
  | _ :: _, [] => false
  | a :: as, b :: bs => a == b && startsWithCL as bs

/-- Does `pat` occur contiguously anywhere in `l`? (helper for `pyIn`). -/
def infixCL (pat : List Char) : List Char → Bool
  | [] => pat.isEmpty
  | b :: bs => startsWithCL pat (b :: bs) || infixCL pat bs

/-- Python `needle in hay` for strings: contiguous substring containment. -/
def pyIn (needle hay : String) : Bool :=
  infixCL needle.data hay.data

/-! ### Slug matcher (`match_provider_slug_to_aa_slug`, mapping script lines 85–110)

The Python function lowercases `provider_slug` once and then tries three
strategies in order, each returning the first candidate (in the iteration
order of `aa_slugs`) that fires:

1. exact: `slug.lower() == provider_slug_lower` (membership test followed by
   `next(slug for slug in aa_slugs if slug.lower() == provider_slug_lower)`,
   i.e. the first exact hit);
2. suffix: `aa_slug.lower().endswith(provider_slug_lower)`;
3. contains: `provider_slug_lower in aa_slug.lower()`.

If none fires it returns `None`.  The `inference_provider` argument is
accepted but never read. -/

/-- Strategy 1 of the matcher: first candidate whose lowercase equals
`provider_slug_lower`. -/
def exactRule (provider_slug_lower : String) (aa_slugs : List String) : Option String :=
  aa_slugs.find? (fun slug => pyLower slug == provider_slug_lower)

/-- Strategy 2 of the matcher: first candidate whose lowercase ends with
`provider_slug_lower`. -/
def suffixRule (provider_slug_lower : String) (aa_slugs : List String) : Option String :=
  aa_slugs.find? (fun slug => pyEndsWith (pyLower slug) provider_slug_lower)

/-- Strategy 3 of the matcher: first candidate whose lowercase contains
`provider_slug_lower` as a substring. -/
def containsRule (provider_slug_lower : String) (aa_slugs : List String) : Option String :=
  aa_slugs.find? (fun slug => pyIn provider_slug_lower (pyLower slug))

/-- `match_provider_slug_to_aa_slug(provider_slug, inference_provider, aa_slugs)`.
The `inference_provider` parameter is present in the Python signature but
unused by the body. -/
def match_provider_slug_to_aa_slug (provider_slug inference_provider : String)
    (aa_slugs : List String) : Option String :=
  let provider_slug_lower := pyLower provider_slug
  match exactRule provider_slug_lower aa_slugs with
  | some slug => some slug
  | none =>
    match suffixRule provider_slug_lower aa_slugs with
    | some slug => some slug
    | none => containsRule provider_slug_lower aa_slugs

/-! ### Helper lemmas about the matcher rules -/

lemma exactRule_mem {psl r : String} {aa_slugs : List String}
    (h : exactRule psl aa_slugs = some r) : r ∈ aa_slugs :=
  List.mem_of_find?_eq_some h

lemma suffixRule_mem {psl r : String} {aa_slugs : List String}
    (h : suffixRule psl aa_slugs = some r) : r ∈ aa_slugs :=
  List.mem_of_find?_eq_some h

lemma containsRule_mem {psl r : String} {aa_slugs : List String}
    (h : containsRule psl aa_slugs = some r) : r ∈ aa_slugs :=
  List.mem_of_find?_eq_some h

lemma match_mem {provider_slug inference_provider r : String} {aa_slugs : List String}
    (h : match_provider_slug_to_aa_slug provider_slug inference_provider aa_slugs = some r) :
    r ∈ aa_slugs := by
  unfold match_provider_slug_to_aa_slug at h
  cases he : exactRule (pyLower provider_slug) aa_slugs with
  | some s =>
    simp only [he] at h
    exact (Option.some.inj h) ▸ exactRule_mem he
  | none =>
    simp only [he] at h
    cases hs : suffixRule (pyLower provider_slug) aa_slugs with
    | some s =>
      simp only [hs] at h
      exact (Option.some.inj h) ▸ suffixRule_mem hs
    | none =>
      simp only [hs] at h
      exact containsRule_mem h

/-! ### Sorting helper, modelling SQL `ORDER BY`

The two `SELECT DISTINCT ... ORDER BY ...` queries of the mapping script sort
their result ascending.  A structural insertion sort keeps every definition
kernel-evaluable. -/

/-- Insert `a` into `l` before the first element `b` with `le a b`. -/
def insertSorted (le : α → α → Bool) (a : α) : List α → List α
  | [] => [a]
  | b :: bs => if le a b then a :: b :: bs else b :: insertSorted le a bs

/-- Insertion sort by the boolean relation `le`. -/
def sortBy (le : α → α → Bool) : List α → List α
  | [] => []
  | a :: as => insertSorted le a (sortBy le as)

lemma insertSorted_perm (le : α → α → Bool) (a : α) (l : List α) :
    (insertSorted le a l).Perm (a :: l) := by
  induction l with
  | nil => exact List.Perm.refl _
  | cons b bs ih =>
    unfold insertSorted
    by_cases h : le a b = true
    · rw [if_pos h]
    · rw [if_neg h]
      exact (List.Perm.cons b ih).trans (List.Perm.swap a b bs)

lemma sortBy_perm (le : α → α → Bool) (l : List α) : (sortBy le l).Perm l := by
  induction l with
  | nil => exact List.Perm.refl _
  | cons a as ih =>
    unfold sortBy
    exact ((insertSorted_perm le a (sortBy le as)).trans (List.Perm.cons a ih))

lemma sortBy_nodup (le : α → α → Bool) {l : List α} (h : l.Nodup) :
    (sortBy le l).Nodup :=
  ((sortBy_perm le l).symm.nodup h)

/-- ASCII-lexicographic `≤` on character lists, the order PostgreSQL's
`ORDER BY` uses on the ASCII slug columns involved. -/
def charListLe : List Char → List Char → Bool
  | [], _ => true
  | _ :: _, [] => false
  | a :: as, b :: bs => if a = b then charListLe as bs else decide (a < b)

/-- `ORDER BY inference_provider, provider_slug` on `(inference_provider,
provider_slug)` pairs. -/
def pairLe (a b : String × String) : Bool :=
  if a.1 = b.1 then charListLe a.2.data b.2.data else charListLe a.1.data b.1.data

/-! ### Mapping pipeline (`refresh_model_aa_mapping.py`)

The mapping table `ims."10_model_aa_mapping"` is a list of `MappingRow`s.  The
two read-only sources are passed in as data: the `working_version` table is a
list of `(inference_provider, provider_slug)` pairs (the two selected
columns), and the metrics table contributes its `aa_slug` column as a list of
strings.  `datetime.utcnow()` is modelled by a `now : Nat` parameter; both
timestamps of a row are taken at (modelled) matching time.  Database errors of
the collaborator are not modelled: every SQL statement issued by this script
succeeds, which is the regime all the claims about it address. -/

/-- One row of `ims."10_model_aa_mapping"`, in the column order of the
`INSERT` statement. -/
structure MappingRow where
  provider_slug : String
  aa_slug : String
  inference_provider : String
  created_at : Nat
  updated_at : Nat
deriving DecidableEq

/-- `clear_mapping_table`: `DELETE FROM ims."10_model_aa_mapping";` then
commit.  The surviving table is empty. -/
def clear_mapping_table (db : List MappingRow) : List MappingRow := []

/-- `fetch_working_version_models`: `SELECT DISTINCT inference_provider,
provider_slug FROM public.working_version WHERE provider_slug IS NOT NULL AND
provider_slug != '' ORDER BY inference_provider, provider_slug`.  `NULL`
slugs are not representable in the `String` model, so the `WHERE` clause is
the non-empty filter. -/
def fetch_working_version_models (working_version : List (String × String)) :
    List (String × String) :=
  sortBy pairLe ((working_version.filter (fun row => !(row.2 == ""))).dedup)

/-- `fetch_aa_performance_slugs`: `SELECT DISTINCT aa_slug FROM
ims."20_aa_performance_metrics" ORDER BY aa_slug`, taking the metrics table's
`aa_slug` column as input. -/
def fetch_aa_performance_slugs (metrics_aa_slugs : List String) : List String :=
  sortBy (fun a b => charListLe a.data b.data) metrics_aa_slugs.dedup

/-- `create_mappings`: for each `(inference_provider, provider_slug)` pair,
run the matcher; matched pairs become rows `(provider_slug, aa_slug,
inference_provider, now, now)`, unmatched pairs are only reported. -/
def create_mappings (models : List (String × String)) (aa_slugs : List String)
    (now : Nat) : List MappingRow :=
  models.filterMap (fun m =>
    match match_provider_slug_to_aa_slug m.2 m.1 aa_slugs with
    | some aa => some ⟨m.2, aa, m.1, now, now⟩
    | none => none)

/-- `insert_mappings`: returns `False` without touching the table when
`mappings` is empty, otherwise bulk-inserts all rows and returns `True`. -/
def insert_mappings (db : List MappingRow) (mappings : List MappingRow) :
    Bool × List MappingRow :=
  if mappings.isEmpty then (false, db) else (true, mappings ++ db)

/-- `main()` of the mapping script: clear, fetch both sources (aborting with
`False` when either is empty), match, insert.  Returns the Python `main()`
boolean together with the final table contents. -/
def mapping_main (working_version : List (String × String))
    (metrics_aa_slugs : List String) (now : Nat) (db : List MappingRow) :
    Bool × List MappingRow :=
  let cleared := clear_mapping_table db
  let models := fetch_working_version_models working_version
  if models.isEmpty then (false, cleared)
  else
    let aa_slugs := fetch_aa_performance_slugs metrics_aa_slugs
    if aa_slugs.isEmpty then (false, cleared)
    else
      let mappings := create_mappings models aa_slugs now
      insert_mappings cleared mappings

/-- The `__main__` block: `sys.exit(0 if success else 1)`. -/
def mapping_exit_code (working_version : List (String × String))
    (metrics_aa_slugs : List String) (now : Nat) (db : List MappingRow) : Nat :=
  if (mapping_main working_version metrics_aa_slugs now db).1 then 0 else 1

/-- The `(inference_provider, provider_slug)` key of a mapping row. -/
def MappingRow.key (r : MappingRow) : String × String :=
  (r.inference_provider, r.provider_slug)

lemma create_mappings_keys (models : List (String × String)) (aa_slugs : List String)
    (now : Nat) :
    (create_mappings models aa_slugs now).map MappingRow.key
      = models.filter (fun m => (match_provider_slug_to_aa_slug m.2 m.1 aa_slugs).isSome) := by
  induction models with
  | nil => rfl
  | cons m ms ih =>
    unfold create_mappings at ih ⊢
    rw [List.filterMap_cons, List.filter_cons]
    cases h : match_provider_slug_to_aa_slug m.2 m.1 aa_slugs with
    | some aa => simp [h, ih, MappingRow.key]
    | none => simp [h, ih]

/-! ### Claims about the slug matcher and the mapping pipeline -/

/-- C4: the matcher evaluates its three rules in strict priority order; if a
case-insensitive exact match exists among the candidates, the returned
candidate is an exact match (so neither the suffix nor the substring rule can
override it).  The `gpt-4o` instance of the claim is discharged in the
witness below. -/
theorem exact_match_takes_precedence (provider_slug inference_provider c : String)
    (aa_slugs : List String) (hmem : c ∈ aa_slugs)
    (hexact : pyLower c = pyLower provider_slug) :
    ∃ r, match_provider_slug_to_aa_slug provider_slug inference_provider aa_slugs = some r
        ∧ pyLower r = pyLower provider_slug := by
  have hsome : (exactRule (pyLower provider_slug) aa_slugs).isSome = true := by
    rw [exactRule, List.find?_isSome]
    exact ⟨c, hmem, by rw [hexact]; exact beq_self_eq_true _⟩
  obtain ⟨r, hr⟩ := Option.isSome_iff_exists.mp hsome
  rw [exactRule] at hr
  have hp := List.find?_some hr
  simp only [beq_iff_eq] at hp
  refine ⟨r, ?_, hp⟩
  unfold match_provider_slug_to_aa_slug exactRule
  simp only [hr]

/-- Witness for C4 at the concrete input of the claim: candidates
`["gpt-4o", "gpt-4o-2024-05-13"]` and `provider_slug = "gpt-4o"`; the second
conjunct checks that the returned exact match is `"gpt-4o"` itself. -/
theorem exact_match_takes_precedence_witness :
    (∃ r, match_provider_slug_to_aa_slug "gpt-4o" "openai" ["gpt-4o", "gpt-4o-2024-05-13"]
            = some r ∧ pyLower r = pyLower "gpt-4o")
    ∧ match_provider_slug_to_aa_slug "gpt-4o" "openai" ["gpt-4o", "gpt-4o-2024-05-13"]
        = some "gpt-4o" :=
  ⟨exact_match_takes_precedence "gpt-4o" "openai" "gpt-4o" ["gpt-4o", "gpt-4o-2024-05-13"]
      (by decide) (by decide),
    by decide⟩

/-- C5: on candidates `{"meta-llama-3.1-8b-instruct", "llama-3.1-8b-instant-turbo"}`
with `provider_slug = "llama-3.1-8b-instant"`, the exact rule and the suffix
rule both produce no hit, and the matcher returns
`"llama-3.1-8b-instant-turbo"` through the substring rule. -/
theorem rule_three_substring_selection :
    exactRule (pyLower "llama-3.1-8b-instant")
        ["meta-llama-3.1-8b-instruct", "llama-3.1-8b-instant-turbo"] = none
    ∧ suffixRule (pyLower "llama-3.1-8b-instant")
        ["meta-llama-3.1-8b-instruct", "llama-3.1-8b-instant-turbo"] = none
    ∧ match_provider_slug_to_aa_slug "llama-3.1-8b-instant" "groq"
        ["meta-llama-3.1-8b-instruct", "llama-3.1-8b-instant-turbo"]
        = some "llama-3.1-8b-instant-turbo" := by
  refine ⟨by decide, by decide, by decide⟩

/-- C10: the matcher's result does not depend on the `inference_provider`
argument (the Python parameter is never read), and any returned slug is an
element of the candidate list, hence in its original casing. -/
theorem matcher_ignores_inference_provider (provider_slug ip1 ip2 : String)
    (aa_slugs : List String) :
    match_provider_slug_to_aa_slug provider_slug ip1 aa_slugs
      = match_provider_slug_to_aa_slug provider_slug ip2 aa_slugs
    ∧ ∀ r, match_provider_slug_to_aa_slug provider_slug ip1 aa_slugs = some r →
        r ∈ aa_slugs :=
  ⟨rfl, fun _ h => match_mem h⟩

/-- Witness for C10: two distinct provider namespaces give the same result on
a concrete candidate list, and the concrete result is a member of the list. -/
theorem matcher_ignores_inference_provider_witness :
    match_provider_slug_to_aa_slug "llama-3.1-8b-instant" "providerA"
        ["meta-llama-3.1-8b-instant"]
      = match_provider_slug_to_aa_slug "llama-3.1-8b-instant" "providerB"
        ["meta-llama-3.1-8b-instant"]
    ∧ "meta-llama-3.1-8b-instant" ∈ ["meta-llama-3.1-8b-instant"] :=
  ⟨(matcher_ignores_inference_provider "llama-3.1-8b-instant" "providerA" "providerB"
      ["meta-llama-3.1-8b-instant"]).1,
    (matcher_ignores_inference_provider "llama-3.1-8b-instant" "providerA" "providerB"
      ["meta-llama-3.1-8b-instant"]).2 "meta-llama-3.1-8b-instant" (by decide)⟩

/-- C9: after any mapping-refresh run, the final mapping table contains at
most one row per `(inference_provider, provider_slug)` key: the table is
cleared first, the source pairs are `SELECT DISTINCT`-deduplicated, and each
pair contributes at most one row carrying exactly that key. -/
theorem mapping_table_unique_per_pair (working_version : List (String × String))
    (metrics_aa_slugs : List String) (now : Nat) (db : List MappingRow) :
    ((mapping_main working_version metrics_aa_slugs now db).2.map MappingRow.key).Nodup := by
  unfold mapping_main clear_mapping_table insert_mappings
  dsimp only
  split
  · simp
  · split
    · simp
    · split
      · simp
      · rw [List.append_nil, create_mappings_keys]
        exact List.Nodup.filter _
          (sortBy_nodup pairLe (List.nodup_dedup _))

/-- Witness for C9 at a concrete run whose source contains a duplicate pair
and two pairs matching the same external slug. -/
theorem mapping_table_unique_per_pair_witness :
    ((mapping_main [("groq", "gpt-4o"), ("groq", "gpt-4o"), ("azure", "gpt-4o")]
        ["gpt-4o"] 0 []).2.map MappingRow.key).Nodup :=
  mapping_table_unique_per_pair [("groq", "gpt-4o"), ("groq", "gpt-4o"), ("azure", "gpt-4o")]
    ["gpt-4o"] 0 []

/-- C1, counterexample: one source pair, every pair unmatched, the clear and
insert steps run without a database error — yet the process exit code is `1`,
not `0`: `insert_mappings` returns `False` for an empty mapping list and
`main` propagates that to `sys.exit`.  The final table is indeed empty. -/
theorem allUnmatched_run_exit_code_one :
    mapping_exit_code [("groq", "zzz-nonexistent-model")] ["gpt-4o"] 0 [] = 1
    ∧ (mapping_main [("groq", "zzz-nonexistent-model")] ["gpt-4o"] 0 []).2 = [] := by
  refine ⟨by decide, by decide⟩

/-- C1, amended: when both sources are non-empty and every
`(inference_provider, provider_slug)` pair is unmatched, the run completes
with the mapping table cleared and zero mappings inserted, but reports
failure (exit code `1`) rather than success, because `insert_mappings`
returns `False` on an empty mapping list. -/
theorem allUnmatched_run_reports_failure (working_version : List (String × String))
    (metrics_aa_slugs : List String) (now : Nat) (db : List MappingRow)
    (hmodels : fetch_working_version_models working_version ≠ [])
    (hslugs : fetch_aa_performance_slugs metrics_aa_slugs ≠ [])
    (hunmatched : ∀ m ∈ fetch_working_version_models working_version,
        match_provider_slug_to_aa_slug m.2 m.1
          (fetch_aa_performance_slugs metrics_aa_slugs) = none) :
    mapping_main working_version metrics_aa_slugs now db = (false, [])
    ∧ mapping_exit_code working_version metrics_aa_slugs now db = 1 := by
  have hmap : create_mappings (fetch_working_version_models working_version)
      (fetch_aa_performance_slugs metrics_aa_slugs) now = [] := by
    unfold create_mappings
    rw [List.filterMap_eq_nil_iff]
    intro m hm
    rw [hunmatched m hm]
  have hmain : mapping_main working_version metrics_aa_slugs now db = (false, []) := by
    unfold mapping_main clear_mapping_table insert_mappings
    simp [hmap, List.isEmpty_iff, hmodels, hslugs]
  refine ⟨hmain, ?_⟩
  simp [mapping_exit_code, hmain]

/-- Witness for C1 (amended) at the concrete all-unmatched input. -/
theorem allUnmatched_run_reports_failure_witness :
    mapping_main [("groq", "zzz-nonexistent-model")] ["gpt-4o"] 0 [] = (false, [])
    ∧ mapping_exit_code [("groq", "zzz-nonexistent-model")] ["gpt-4o"] 0 [] = 1 :=
  allUnmatched_run_reports_failure [("groq", "zzz-nonexistent-model")] ["gpt-4o"] 0 []
    (by decide) (by decide) (by decide)

/-! ### JSON values and Python truthiness

`requests.Response.json()` hands the metrics script a parsed JSON value.
Python `None` is identified with `Json.null` (JSON `null` parses to `None`).
Numbers are modelled as integers: the scripts never compute with a numeric
value, they only move values around and test them for `None`, so the
numeric carrier is irrelevant to every claim. -/

inductive Json where
  | null
  | bool (b : Bool)
  | num (n : Int)
  | str (s : String)
  | arr (elems : List Json)
  | obj (fields : List (String × Json))

/-- Python truthiness of a JSON value (`not x`). -/
def Json.truthy : Json → Bool
  | .null => false
  | .bool b => b
  | .num n => !(n == 0)
  | .str s => !(s == "")
  | .arr elems => !elems.isEmpty
  | .obj fields => !fields.isEmpty

/-- Python `x is None` on a JSON-derived value. -/
def Json.isNull : Json → Bool
  | .null => true
  | _ => false

/-- Is the value a JSON object, i.e. does it support `.get` in Python? -/
def Json.isObj : Json → Bool
  | .obj _ => true
  | _ => false

/-- Python `d.get(k)` on a JSON object's field list: the value, with an
absent key giving `None` (≡ `null`). -/
def pyDictGet (fields : List (String × Json)) (k : String) : Json :=
  (fields.lookup k).getD .null

/-- Python `d.get(k, default)`: the default is used only when the key is
absent; a key present with value `null` yields `None`, not the default. -/
def pyDictGetD (fields : List (String × Json)) (k : String) (dflt : Json) : Json :=
  (fields.lookup k).getD dflt

/-! ### Fetch stage (`fetch_aa_performance_data`, metrics script lines 28–63)

The configuration check and the HTTP round-trip itself are collaborator
concerns; the embedding starts from the response: its `ok` flag and parsed
JSON body.  The Python code raises on `not response.ok`, then raises
`"Invalid API response format"` when `not data.get("data") or not
isinstance(data["data"], list)` — note the truthiness test, which also
rejects a present-but-empty `data` list — and otherwise returns the list. -/

/-- An HTTP response as the fetch stage observes it. -/
structure HttpResponse where
  ok : Bool
  body : Json

/-- `fetch_aa_performance_data`, from the `response.ok` check onward.  A body
that is not a JSON object makes `data.get` raise `AttributeError`. -/
def fetch_aa_performance_data (response : HttpResponse) : Except String (List Json) :=
  if !response.ok then .error "API request failed"
  else
    match response.body with
    | .obj data =>
      if !(pyDictGet data "data").truthy then .error "Invalid API response format"
      else
        match pyDictGet data "data" with
        | .arr models => .ok models
        | _ => .error "Invalid API response format"
    | _ => .error "AttributeError"

/-! ### Transform stage (`transform_to_db_format`, metrics script lines 65–133)

Per model: read `evaluations`, `pricing` and `model_creator` with `{}` as the
absent-key default, extract the intelligence index from `evaluations`, skip
the model when it is `None`, otherwise build the database record.  Python
raises `AttributeError` when `.get` is called on a non-object: on the model
itself, on `evaluations` (always reached), and on `model_creator`/`pricing`
(reached only past the skip check, during record construction).  Any such
exception propagates to `main`'s handler. -/

/-- One row of `ims."20_aa_performance_metrics"`.  Fields hold the extracted
JSON values; `null` is a SQL `NULL`. -/
structure PerformanceRecord where
  aa_model_id : Json := .null
  aa_slug : Json := .null
  name : Json := .null
  creator_name : Json := .null
  creator_slug : Json := .null
  release_date : Json := .null
  intelligence_index : Json := .null
  coding_index : Json := .null
  math_index : Json := .null
  mmlu_pro : Json := .null
  gpqa : Json := .null
  hle : Json := .null
  livecodebench : Json := .null
  scicode : Json := .null
  math_500 : Json := .null
  aime : Json := .null
  aime_25 : Json := .null
  ifbench : Json := .null
  lcr : Json := .null
  terminalbench_hard : Json := .null
  tau2 : Json := .null
  price_1m_input_tokens : Json := .null
  price_1m_output_tokens : Json := .null
  price_1m_blended : Json := .null
  median_output_tokens_per_second : Json := .null
  median_time_to_first_token_seconds : Json := .null
  median_time_to_first_answer_token : Json := .null

/-- The loop body of `transform_to_db_format` for one element of `api_data`:
either the record to append (`some`), a skip (`none`), or a raised
`AttributeError`. -/
def transform_model (model : Json) : Except String (Option PerformanceRecord) :=
  match model with
  | .obj m =>
    let evaluations := pyDictGetD m "evaluations" (.obj [])
    let pricing := pyDictGetD m "pricing" (.obj [])
    let creator := pyDictGetD m "model_creator" (.obj [])
    match evaluations with
    | .obj ev =>
      let intelligence_index := pyDictGet ev "artificial_analysis_intelligence_index"
      if intelligence_index.isNull then .ok none
      else
        match creator, pricing with
        | .obj cr, .obj pr =>
          .ok (some {
            aa_model_id := pyDictGet m "id"
            aa_slug := pyDictGet m "slug"
            name := pyDictGet m "name"
            creator_name := pyDictGet cr "name"
            creator_slug := pyDictGet cr "slug"
            release_date := pyDictGet m "release_date"
            intelligence_index := intelligence_index
            coding_index := pyDictGet ev "artificial_analysis_coding_index"
            math_index := pyDictGet ev "artificial_analysis_math_index"
            mmlu_pro := pyDictGet ev "mmlu_pro"
            gpqa := pyDictGet ev "gpqa"
            hle := pyDictGet ev "hle"
            livecodebench := pyDictGet ev "livecodebench"
            scicode := pyDictGet ev "scicode"
            math_500 := pyDictGet ev "math_500"
            aime := pyDictGet ev "aime"
            aime_25 := pyDictGet ev "aime_25"
            ifbench := pyDictGet ev "ifbench"
            lcr := pyDictGet ev "lcr"
            terminalbench_hard := pyDictGet ev "terminalbench_hard"
            tau2 := pyDictGet ev "tau2"
            price_1m_input_tokens := pyDictGet pr "price_1m_input_tokens"
            price_1m_output_tokens := pyDictGet pr "price_1m_output_tokens"
            price_1m_blended := pyDictGet pr "price_1m_blended_3_to_1"
            median_output_tokens_per_second := pyDictGet m "median_output_tokens_per_second"
            median_time_to_first_token_seconds := pyDictGet m "median_time_to_first_token_seconds"
            median_time_to_first_answer_token := pyDictGet m "median_time_to_first_answer_token" })
        | _, _ => .error "AttributeError"
    | _ => .error "AttributeError"
  | _ => .error "AttributeError"

/-- `transform_to_db_format`: fold `transform_model` over `api_data`,
accumulating the non-skipped records in order; the first raised exception
aborts the stage. -/
def transform_to_db_format : List Json → Except String (List PerformanceRecord)
  | [] => .ok []
  | model :: rest =>
    match transform_model model with
    | .error e => .error e
    | .ok result =>
      match transform_to_db_format rest with
      | .error e => .error e
      | .ok records =>
        .ok (match result with
             | some r => r :: records
             | none => records)

/-- A model object that the transform loop skips: the intelligence index is
absent from `evaluations` or explicitly `null` (Python `None` either way).
Only meaningful for well-formed models; the degenerate branches mirror the
transform's exception cases. -/
def lacksIntelligenceIndex (model : Json) : Bool :=
  match model with
  | .obj m =>
    match pyDictGetD m "evaluations" (.obj []) with
    | .obj ev => (pyDictGet ev "artificial_analysis_intelligence_index").isNull
    | _ => true
  | _ => true

/-- A model object on which the transform loop does not raise: the element is
an object, its `evaluations` value (defaulting to `{}`) is an object, and —
when the model is not skipped — its `model_creator` and `pricing` values are
objects too.  This is the shape §6 of the specification promises for every
model object of the API response. -/
def wellFormedModel (model : Json) : Bool :=
  match model with
  | .obj m =>
    match pyDictGetD m "evaluations" (.obj []) with
    | .obj ev =>
      if (pyDictGet ev "artificial_analysis_intelligence_index").isNull then true
      else (pyDictGetD m "model_creator" (.obj [])).isObj
             && (pyDictGetD m "pricing" (.obj [])).isObj
    | _ => false
  | _ => false

/-! ### Atomic-Replace Loader (`refresh_database_table`, metrics lines 135–237)

The committed database state is the metrics target table together with the
backup table (`none` when the relation does not exist).  The connection has
`autocommit = False`, so every statement — including the `DROP TABLE` /
`CREATE TABLE` DDL, which is transactional in PostgreSQL — joins one open
transaction until `commit()` or `rollback()`.

Success path (`insertFail = none`), tracing the code:
  step 1 drops any stale backup and snapshots the target into a fresh backup,
  step 2 deletes the target's rows, step 3 inserts `records`; the commit
  makes `{target := records, backup := some old-target}` durable; the
  post-commit `DROP TABLE` plus second commit removes the backup.  Final
  state: `{target := records, backup := none}`, no exception.

Failure path (`insertFail = some k`: the bulk insert raises after `k` rows).
  `conn.rollback()` discards the whole transaction — the partial insert, the
  delete, *and* the step-1 DDL, so the backup relation reverts to its
  pre-call state `db.backup`.  The except-branch then runs the best-effort
  restore `DELETE FROM target; INSERT INTO target SELECT * FROM backup;` and
  commits:
  * if `db.backup = some b` (a stale backup from an earlier failed run
    survived rollback), the restore succeeds and commits `{target := b,
    backup := some b}` — the *stale* rows, not the pre-call target;
  * if `db.backup = none`, the backup relation does not exist, the `INSERT`
    raises inside the restore's transaction before any commit, the inner
    except only logs, and closing the connection in the `finally` block rolls
    the restore's `DELETE` back — the committed state stays `db`.
  Either way the original exception is re-raised (`raise`), reported as
  `false` here. -/

/-- Committed database state of the metrics pipeline: the
`ims."20_aa_performance_metrics"` table and the transient backup table
(`none` = relation absent). -/
structure MetricsDB where
  target : List PerformanceRecord
  backup : Option (List PerformanceRecord)

/-- `refresh_database_table` on the committed state.  `insertFail = some k`
forces the step-3 bulk insert to raise after `k` rows; `none` lets every
statement succeed.  Returns `(completed-without-exception, committed state)`;
see the section comment for the line-by-line correspondence. -/
def refresh_database_table (insertFail : Option Nat)
    (records : List PerformanceRecord) (db : MetricsDB) : Bool × MetricsDB :=
  match insertFail with
  | none => (true, { target := records, backup := none })
  | some _ =>
    match db.backup with
    | some b => (false, { target := b, backup := some b })
    | none => (false, db)

/-- `main()` of the metrics script: fetch, transform, short-circuit with a
warning (and a plain `return`, i.e. exit code 0) when no records survive the
filter, otherwise refresh; any raised exception is caught and turned into
`sys.exit(1)`.  Returns `(exit code, committed database state)`. -/
def metrics_main (response : HttpResponse) (insertFail : Option Nat)
    (db : MetricsDB) : Nat × MetricsDB :=
  match fetch_aa_performance_data response with
  | .error _ => (1, db)
  | .ok api_data =>
    match transform_to_db_format api_data with
    | .error _ => (1, db)
    | .ok db_records =>
      if db_records.isEmpty then (0, db)
      else
        match refresh_database_table insertFail db_records db with
        | (true, db2) => (0, db2)
        | (false, db2) => (1, db2)

/-! ### Concrete records and responses used by the witnesses below -/

/-- A sample record (all fields `NULL` except the required metric). -/
def recA : PerformanceRecord := { intelligence_index := .num 1 }

/-- A second sample record, distinct from `recA`. -/
def recB : PerformanceRecord := { intelligence_index := .num 2 }

/-- A third sample record. -/
def recC : PerformanceRecord := { intelligence_index := .num 3 }

/-- A successful response whose `data` list is present but empty. -/
def respEmptyData : HttpResponse := { ok := true, body := .obj [("data", .arr [])] }

/-- A successful response carrying one model object that lacks the
intelligence index. -/
def respOneModel : HttpResponse := { ok := true, body := .obj [("data", .arr [.obj []])] }

/-- A well-formed model object carrying an intelligence index. -/
def modelWithII : Json :=
  .obj [("slug", .str "gpt-4o"),
        ("evaluations", .obj [("artificial_analysis_intelligence_index", .num 50)])]

/-- A well-formed model object lacking the intelligence index. -/
def modelNoII : Json := .obj [("evaluations", .obj [])]

/-! ### Claims about the metrics pipeline -/

/-- C3, counterexample: a successful HTTP response whose `data` field is a
list — the empty list — is rejected by the fetch stage, because the code
tests `not data.get("data")` and an empty list is Python-falsy.  The claim's
"accepts every successful response whose `data` field is a list" is
therefore false. -/
theorem fetch_rejects_empty_data_list :
    fetch_aa_performance_data respEmptyData = .error "Invalid API response format"
    ∧ respEmptyData.ok = true
    ∧ pyDictGet [("data", Json.arr [])] "data" = Json.arr [] :=
  ⟨rfl, rfl, rfl⟩

/-- C3, amended: the fetch stage succeeds — returning the `data` list — if
and only if the HTTP response is a success, its body is a JSON object, and
the `data` field holds a *non-empty* list; it fails in every other case
(non-success status, non-object body, `data` absent, falsy — in particular
the empty list — or not a list). -/
theorem fetch_ok_iff_nonempty_data_list (response : HttpResponse) (models : List Json) :
    fetch_aa_performance_data response = .ok models
      ↔ response.ok = true
        ∧ ∃ fields, response.body = .obj fields
            ∧ fields.lookup "data" = some (.arr models)
            ∧ models ≠ [] := by
  obtain ⟨ok, body⟩ := response
  cases ok
  · simp [fetch_aa_performance_data]
  · cases body with
    | obj fields =>
      cases hd : fields.lookup "data" with
      | none => simp [fetch_aa_performance_data, pyDictGet, hd, Json.truthy]
      | some v =>
        cases v with
        | arr elems =>
          by_cases h : elems = []
          · subst h
            simp [fetch_aa_performance_data, pyDictGet, hd, Json.truthy]
          · have hne : elems.isEmpty = false := by simp [List.isEmpty_iff, h]
            simp only [fetch_aa_performance_data, pyDictGet, hd, Option.getD_some,
              Json.truthy, hne]
            simp [h]
            constructor
            · rintro rfl
              exact ⟨hd, h⟩
            · rintro ⟨hlook, -⟩
              rw [hd] at hlook
              exact Json.arr.inj (Option.some.inj hlook)
        | null => simp [fetch_aa_performance_data, pyDictGet, hd, Json.truthy]
        | bool b => cases b <;> simp [fetch_aa_performance_data, pyDictGet, hd, Json.truthy]
        | num n => simp [fetch_aa_performance_data, pyDictGet, hd, Json.truthy]
        | str s => simp [fetch_aa_performance_data, pyDictGet, hd, Json.truthy]
        | obj inner => simp [fetch_aa_performance_data, pyDictGet, hd, Json.truthy]
    | null => simp [fetch_aa_performance_data]
    | bool b => simp [fetch_aa_performance_data]
    | num n => simp [fetch_aa_performance_data]
    | str s => simp [fetch_aa_performance_data]
    | arr elems => simp [fetch_aa_performance_data]

/-- Witness for C3 (amended): a success response with a one-element `data`
list is accepted and its list returned. -/
theorem fetch_ok_iff_nonempty_data_list_witness :
    fetch_aa_performance_data respOneModel = .ok [.obj []] :=
  (fetch_ok_iff_nonempty_data_list respOneModel [.obj []]).mpr
    ⟨rfl, [("data", .arr [.obj []])], rfl, rfl, by simp⟩

/-- C6: when the transform stage yields zero records, `main` logs a warning
and returns before `refresh_database_table` is ever called: the exit code is
`0` and the committed database state — in particular the target table — is
exactly the pre-call state. -/
theorem empty_records_short_circuit (response : HttpResponse) (insertFail : Option Nat)
    (db : MetricsDB) (api_data : List Json)
    (hfetch : fetch_aa_performance_data response = .ok api_data)
    (htrans : transform_to_db_format api_data = .ok []) :
    metrics_main response insertFail db = (0, db) := by
  simp [metrics_main, hfetch, htrans]

/-- Witness for C6: a run whose single fetched model lacks the intelligence
index leaves the database untouched and exits 0, whatever failure the loader
would have injected. -/
theorem empty_records_short_circuit_witness :
    metrics_main respOneModel (some 0) { target := [recA], backup := none }
      = (0, { target := [recA], backup := none }) :=
  empty_records_short_circuit respOneModel (some 0)
    { target := [recA], backup := none } [.obj []] rfl rfl

/-- C2, counterexample: the claimed restore post-condition fails when a stale
backup table from an earlier failed run exists before the call.  Target
`[recA]` (N = 1 row), stale backup `[recB]`, insert of `[recC]` fails
partway: the rollback also rolls the step-1 `DROP`/`CREATE` DDL back, so the
best-effort restore copies the *stale* backup over the target.  The loader
reports failure, but the final target is `[recB]`, not the original
`[recA]`. -/
theorem stale_backup_restore_clobbers_target :
    refresh_database_table (some 1) [recC] { target := [recA], backup := some [recB] }
      = (false, { target := [recB], backup := some [recB] })
    ∧ ¬ (refresh_database_table (some 1) [recC]
          { target := [recA], backup := some [recB] }).2.target = [recA] := by
  refine ⟨rfl, ?_⟩
  intro h
  have h' : ([recB] : List PerformanceRecord) = [recA] := h
  simp only [List.cons.injEq, and_true] at h'
  have hfield := congrArg PerformanceRecord.intelligence_index h'
  simp [recA, recB] at hfield

/-- C2, amended: provided no backup table exists before the call (the state
every successful run leaves behind), a bulk insert that fails partway leaves
the target table with exactly its original rows and the loader reports
failure.  The restoration is achieved by the transaction rollback itself:
the in-transaction backup creation is rolled back too, so the explicit
best-effort restore fails and is itself rolled back when the connection
closes.  (With a stale pre-existing backup the post-condition fails — see
the counterexample.) -/
theorem insert_failure_restores_original_rows (k : Nat)
    (records : List PerformanceRecord) (db : MetricsDB)
    (hbackup : db.backup = none) :
    refresh_database_table (some k) records db = (false, db) := by
  obtain ⟨t, b⟩ := db
  cases b with
  | none => rfl
  | some x => simp at hbackup

/-- Witness for C2 (amended): one original row, no pre-existing backup, a
failing insert of a different record; the state is unchanged and failure is
reported. -/
theorem insert_failure_restores_original_rows_witness :
    refresh_database_table (some 1) [recB] { target := [recA], backup := none }
      = (false, { target := [recA], backup := none }) :=
  insert_failure_restores_original_rows 1 [recB]
    { target := [recA], backup := none } rfl

/-- C8: running the loader twice in succession with the same non-empty input
succeeds both times; after the second run the target table holds exactly the
input records and no backup table is present. -/
theorem refresh_twice_idempotent (records : List PerformanceRecord) (db : MetricsDB)
    (hne : records ≠ []) :
    (refresh_database_table none records db).1 = true
    ∧ refresh_database_table none records
        ((refresh_database_table none records db).2)
        = (true, { target := records, backup := none }) :=
  ⟨rfl, rfl⟩

/-- Witness for C8: two successive refreshes with `[recA]` starting from a
table holding `[recB]` and even a stale backup. -/
theorem refresh_twice_idempotent_witness :
    (refresh_database_table none [recA] { target := [recB], backup := some [recC] }).1 = true
    ∧ refresh_database_table none [recA]
        ((refresh_database_table none [recA] { target := [recB], backup := some [recC] }).2)
        = (true, { target := [recA], backup := none }) :=
  refresh_twice_idempotent [recA] { target := [recB], backup := some [recC] } (by simp)

lemma transform_model_wf (model : Json) (h : wellFormedModel model = true) :
    (lacksIntelligenceIndex model = true ∧ transform_model model = .ok none)
    ∨ (lacksIntelligenceIndex model = false
        ∧ ∃ r, transform_model model = .ok (some r)
            ∧ r.intelligence_index.isNull = false) := by
  cases model with
  | obj m =>
    cases hev : pyDictGetD m "evaluations" (.obj []) with
    | obj ev =>
      by_cases hii : (pyDictGet ev "artificial_analysis_intelligence_index").isNull = true
      · left
        constructor
        · simp [lacksIntelligenceIndex, hev, hii]
        · simp [transform_model, hev, hii]
      · right
        have hii2 : (pyDictGet ev "artificial_analysis_intelligence_index").isNull = false := by
          simpa using hii
        refine ⟨by simp [lacksIntelligenceIndex, hev, hii2], ?_⟩
        rw [wellFormedModel] at h
        simp only [hev, hii2, Bool.false_eq_true, if_false, Bool.and_eq_true] at h
        obtain ⟨hcr, hpr⟩ := h
        cases hcrv : pyDictGetD m "model_creator" (.obj []) <;>
          rw [hcrv] at hcr <;> simp [Json.isObj] at hcr
        cases hprv : pyDictGetD m "pricing" (.obj []) <;>
          rw [hprv] at hpr <;> simp [Json.isObj] at hpr
        simp only [transform_model, hev, hcrv, hprv, hii2, Bool.false_eq_true, if_false]
        exact ⟨_, rfl, hii2⟩
    | null =>
      rw [wellFormedModel] at h
      simp [hev] at h
    | bool b =>
      rw [wellFormedModel] at h
      simp [hev] at h
    | num n =>
      rw [wellFormedModel] at h
      simp [hev] at h
    | str s =>
      rw [wellFormedModel] at h
      simp [hev] at h
    | arr elems =>
      rw [wellFormedModel] at h
      simp [hev] at h
  | null => simp [wellFormedModel] at h
  | bool b => simp [wellFormedModel] at h
  | num n => simp [wellFormedModel] at h
  | str s => simp [wellFormedModel] at h
  | arr elems => simp [wellFormedModel] at h

/-- C7: on a list of M well-formed model objects of which exactly K lack the
intelligence index (absent or `null`), the transform stage succeeds and
emits exactly M − K records (stated additively: `length + K = M`), every one
of them carrying a non-null `intelligence_index`. -/
theorem transform_emits_all_with_metric (api_data : List Json)
    (hwf : ∀ m ∈ api_data, wellFormedModel m = true) :
    ∃ records, transform_to_db_format api_data = .ok records
      ∧ records.length + api_data.countP lacksIntelligenceIndex = api_data.length
      ∧ ∀ r ∈ records, r.intelligence_index.isNull = false := by
  induction api_data with
  | nil => exact ⟨[], rfl, by simp, by simp⟩
  | cons m ms ih =>
    obtain ⟨records, hrec, hlen, hall⟩ := ih (fun x hx => hwf x (List.mem_cons_of_mem m hx))
    rcases transform_model_wf m (hwf m (List.mem_cons_self m ms)) with
      ⟨hlacks, hok⟩ | ⟨hlacks, r, hok, hnull⟩
    · refine ⟨records, ?_, ?_, hall⟩
      · simp [transform_to_db_format, hok, hrec]
      · simp [List.countP_cons, hlacks]
        omega
    · refine ⟨r :: records, ?_, ?_, ?_⟩
      · simp [transform_to_db_format, hok, hrec]
      · simp [List.countP_cons, hlacks]
        omega
      · intro x hx
        rcases List.mem_cons.mp hx with hx | hx
        · exact hx ▸ hnull
        · exact hall x hx

/-- Witness for C7: two well-formed models, one with and one without the
intelligence index (M = 2, K = 1). -/
theorem transform_emits_all_with_metric_witness :
    ∃ records, transform_to_db_format [modelWithII, modelNoII] = .ok records
      ∧ records.length + [modelWithII, modelNoII].countP lacksIntelligenceIndex
          = [modelWithII, modelNoII].length
      ∧ ∀ r ∈ records, r.intelligence_index.isNull = false :=
  transform_emits_all_with_metric [modelWithII, modelNoII] (by decide)

end IMS

